import Mathlib

/-!
Verification of the `MenuItem` component of custom-electron-titlebar
(`src/unnamed/part_000`, a port of vscode's menu item renderer).

The class is embedded shallowly:
* `IMenuItem` is the menu-item configuration record (the fields of
  `MenuItemConstructorOptions` that the class reads).  JavaScript
  truthiness of optional strings is modelled by `truthyS`.
* `ItemState` is the DOM-observable state of one rendered item: the CSS
  classes, ARIA attributes, inline colors, tab index, tooltip and label
  HTML that the class mutates.
* The methods `updateLabel`, `updateTooltip`, `updateEnabled`,
  `updateChecked`, `onClick`, `dispose`, `applyStyle`, `style` and the
  mouse-down listener registered in `render` become state transformers.

Helpers imported from `./menu`, `../common/strings` and
`../common/lifecycle` are not part of the sources; they are modelled
from the specification and marked `Modelled from the spec:` in their
doc comments.
-/

namespace MenuItemSpec

/-- JavaScript truthiness of an optional string value: `undefined`/`null`
and the empty string are falsy. -/
def truthyS : Option String → Bool
  | none => false
  | some s => !s.isEmpty

/-- Whitespace test used by `trimList` (the characters JavaScript
`String.prototype.trim` removes that can occur in menu labels). -/
def isWS (c : Char) : Bool := c == ' ' || c == '\t' || c == '\n' || c == '\r'

/-- List-level model of JavaScript `String.prototype.trim`. -/
def trimList (s : List Char) : List Char :=
  ((s.dropWhile isWS).reverse.dropWhile isWS).reverse

/-- Modelled from the spec: `MENU_MNEMONIC_REGEX` from `./menu` (not in
the sources).  The spec describes the marker as "an ampersand-escaped or
double-ampersand-escaped character"; this returns the capture group of
the first match of `&{1,2}(.)`, i.e. the character escaped by the first
single or (greedily) double ampersand. -/
def mnemonicExec : List Char → Option Char
  | '&' :: '&' :: c :: _ => some c
  | '&' :: c :: _ => some c
  | _ :: rest => mnemonicExec rest
  | [] => none

/-- Modelled from the spec: the replacement step of `cleanMnemonic` from
`./menu` (not in the sources) — "the rendered accessible label has the
marker removed": the ampersands of the first marker are dropped, the
escaped character is kept. -/
def cleanMnemonicAux : List Char → List Char
  | '&' :: '&' :: c :: rest => c :: rest
  | '&' :: c :: rest => c :: rest
  | x :: rest => x :: cleanMnemonicAux rest
  | [] => []

/-- Modelled from the spec: `cleanMnemonic` from `./menu` (not in the
sources) — removes the first mnemonic marker from a label and trims the
result. -/
def cleanMnemonic (s : String) : String :=
  String.mk (trimList (cleanMnemonicAux s.data))

/-- Modelled from the spec: the repo's exported `escape(html)` helper —
"producing HTML-entity-escaped text".  `updateLabel` is *meant* to call
it, but `part_000` never imports it (see `jsGlobalEscape`); it is kept
here to state what the spec requires of the label markup. -/
def escapeChar : Char → List Char
  | '<' => ['&', 'l', 't', ';']
  | '>' => ['&', 'g', 't', ';']
  | '&' => ['&', 'a', 'm', 'p', ';']
  | c => [c]

/-- HTML-entity escape of a whole character list. -/
def escapeList (s : List Char) : List Char := s.flatMap escapeChar

/-- Hexadecimal digit (uppercase), as produced by the JS global
`escape`; the argument is reduced mod 16. -/
def hexDigit (n : Nat) : Char :=
  match n % 16 with
  | 0 => '0' | 1 => '1' | 2 => '2' | 3 => '3' | 4 => '4'
  | 5 => '5' | 6 => '6' | 7 => '7' | 8 => '8' | 9 => '9'
  | 10 => 'A' | 11 => 'B' | 12 => 'C' | 13 => 'D' | 14 => 'E' | _ => 'F'

/-- The characters the JS global `escape` leaves unescaped:
`A-Z a-z 0-9 @ * _ + - . /` (ECMA-262 Annex B). -/
def isEscapeSafe (c : Char) : Bool :=
  (65 ≤ c.toNat && c.toNat ≤ 90) || (97 ≤ c.toNat && c.toNat ≤ 122) ||
  (48 ≤ c.toNat && c.toNat ≤ 57) ||
  c == '@' || c == '*' || c == '_' || c == '+' || c == '-' || c == '.' || c == '/'

/-- A `%uXXXX` escape sequence for one UTF-16 code unit. -/
def pctU (n : Nat) : List Char :=
  ['%', 'u', hexDigit (n / 4096), hexDigit (n / 256), hexDigit (n / 16), hexDigit n]

/-- Percent-encoding of one character by the JS global `escape`: safe
characters pass through, code units below 256 become `%XX`, other BMP
code points `%uXXXX`, and supplementary code points are first split
into their UTF-16 surrogate pair. -/
def jsEscapeChar (c : Char) : List Char :=
  if isEscapeSafe c then [c]
  else if c.toNat < 256 then
    ['%', hexDigit (c.toNat / 16), hexDigit c.toNat]
  else if c.toNat < 65536 then pctU c.toNat
  else
    pctU (55296 + (c.toNat - 65536) / 1024) ++ pctU (56320 + (c.toNat - 65536) % 1024)

/-- The ambient JavaScript global `escape` (ECMA-262 Annex B
percent-encoder).  This is what the free identifier `escape` on line
164 of `part_000` actually resolves to: the module's import block
(lines 11-16) never imports the repo's HTML `escape` helper. -/
def jsGlobalEscape (s : List Char) : List Char := s.flatMap jsEscapeChar

/-- The opening markup of the underline tag injected for the mnemonic. -/
def uOpen : List Char := "<u aria-hidden=\"true\">".data

/-- The closing markup of the underline tag. -/
def uClose : List Char := "</u>".data

/-- Consumes a leading `&amp;` entity, if present. -/
def dropAmpEntity : List Char → Option (List Char)
  | a :: b :: c :: d :: e :: rest =>
    if a == '&' && b == 'a' && c == 'm' && d == 'p' && e == ';' then some rest
    else none
  | _ => none

/-- Modelled from the spec: the single `label.replace` step over
`MENU_ESCAPED_MNEMONIC_REGEX` with replacement
`<u aria-hidden="true">$1</u>` (regex from `./menu`, not in the sources):
the first occurrence of one or (greedily) two `&amp;` entities followed
by a character is replaced by that character wrapped in the underline
tag; everything else is untouched, so exactly one tag is injected. -/
def injectMnemonicTag : List Char → List Char
  | [] => []
  | x :: rest =>
    match dropAmpEntity (x :: rest) with
    | some r1 =>
      match dropAmpEntity r1 with
      | some (c :: r2) => uOpen ++ c :: (uClose ++ r2)
      | _ =>
        match r1 with
        | c :: r2 => uOpen ++ c :: (uClose ++ r2)
        | [] => x :: injectMnemonicTag rest
    | none => x :: injectMnemonicTag rest

/-- The fields of the menu-item configuration (`IMenuItem extends
MenuItemConstructorOptions`) that the class reads.  `click` is the
optional click callback, identified by a handler id so that invocations
can be recorded; `icon` models truthiness of the optional icon. -/
structure IMenuItem where
  label : Option String := none
  sublabel : Option String := none
  icon : Bool := false
  accelerator : Option String := none
  type : Option String := none
  enabled : Bool := false
  checked : Bool := false
  click : Option Nat := none
  deriving Repr, DecidableEq

/-- The fields of `IMenuOptions` (from `./menu`) that `MenuItem` reads.
An absent options object has `enableMnemonics` undefined, hence falsy. -/
structure IMenuOptions where
  enableMnemonics : Bool := false
  deriving Repr, DecidableEq

/-- `IMenuStyle` colors, already rendered to CSS strings (`Color.toString`
is total on the opaque color type, and a color object is always truthy,
so only presence/absence matters besides the string). -/
structure IMenuStyle where
  foregroundColor : Option String := none
  backgroundColor : Option String := none
  selectionForegroundColor : Option String := none
  selectionBackgroundColor : Option String := none
  deriving Repr, DecidableEq

/-- DOM-observable state of one rendered `MenuItem`: classes on the
container, attributes and inline styles on `itemElement`,
`checkElement` and `labelElement`.  `none` for an attribute or inline
style means it was never set / was cleared.  `hasContainer` models the
truthiness of `this.container`. -/
structure ItemState where
  hasContainer : Bool := true
  activeClass : Bool := false
  disabledClass : Bool := false
  checkedClass : Bool := false
  focusedClass : Bool := false
  tabIndex : Option Int := none
  role : String := "menuitem"
  ariaChecked : Option String := none
  ariaLabel : Option String := none
  ariaKeyshortcuts : Option String := none
  labelHTML : Option String := none
  title : Option String := none
  checkBackgroundColor : Option String := none
  itemColor : Option String := none
  itemBackgroundColor : Option String := none
  deriving Repr, DecidableEq

/-- One invocation of the config's `click` callback, with the arguments
the source passes: `this.item`, `this.currentWindow`, `this.event`. -/
structure ClickCall where
  handler : Nat
  itemArg : IMenuItem
  windowArg : Nat
  eventArg : Option Nat
  deriving Repr, DecidableEq

/-- The instance fields of a constructed `MenuItem` that the verified
methods touch.  `storedEvent` is the private field `event`, which is
declared in the class but assigned nowhere, and `mnemonic` is the key
derived in the constructor. -/
structure MenuItemModel where
  item : IMenuItem
  options : IMenuOptions := {}
  currentWindow : Nat := 0
  storedEvent : Option Nat := none
  mnemonic : Option String := none
  state : ItemState := {}
  deriving Repr, DecidableEq

/-- Mnemonic derivation of the constructor (lines 48-57): only when the
label is truthy and `options.enableMnemonics` is set, the capture group
of the first `MENU_MNEMONIC_REGEX` match, uppercased.  (Modelled from
the spec: `KeyCodeUtils.fromString` is not in the sources, so the key
is represented by the uppercased character itself.) -/
def constructorMnemonic (item : IMenuItem) (options : IMenuOptions) : Option String :=
  if truthyS item.label && options.enableMnemonics then
    match mnemonicExec (item.label.getD "").data with
    | some c => some (String.mk [c.toUpper])
    | none => none
  else none

/-- The `MenuItem` constructor: stores the config, options and current
window, derives the mnemonic; the private `event` field is never
assigned anywhere in the class, so it stays undefined. -/
def mkMenuItem (item : IMenuItem) (options : IMenuOptions) (window : Nat) : MenuItemModel :=
  { item := item
    options := options
    currentWindow := window
    storedEvent := none
    mnemonic := constructorMnemonic item options
    state := {} }

/-- `updateLabel` (lines 150-171): when the label is truthy, sets
`aria-label` to the cleaned label; when `MENU_MNEMONIC_REGEX` matches
the (raw if mnemonics enabled, cleaned otherwise) label, replaces the
label markup by `escape(label)` with the escaped-mnemonic replacement
applied, and sets `aria-keyshortcuts` to the lowercased capture;
finally assigns the trimmed markup to the label element's `innerHTML`.
The `escape` called on line 164 is the JS global percent-encoder
`jsGlobalEscape` — the module never imports the repo's HTML escape
helper — so the `&amp;`-matching replacement is applied to
percent-encoded text. -/
def updateLabel (item : IMenuItem) (enableMnemonics : Bool) (s : ItemState) : ItemState :=
  if truthyS item.label then
    let label0 := item.label.getD ""
    let cleanLabel := cleanMnemonic label0
    let label1 := if !enableMnemonics then cleanLabel else label0
    let s1 := { s with ariaLabel := some cleanLabel }
    match mnemonicExec label1.data with
    | some c =>
      let label2 := String.mk (injectMnemonicTag (jsGlobalEscape label1.data))
      { s1 with
          labelHTML := some (String.mk (trimList label2.data))
          ariaKeyshortcuts := some (String.mk [c.toLower]) }
    | none => { s1 with labelHTML := some (String.mk (trimList label1.data)) }
  else s

/-- `updateTooltip` (lines 173-189): the computed title prefers the
sublabel; the fallback branch keeps the source's contradictory guard
`!this.item.label && this.item.label && this.item.icon` verbatim; the
title attribute is only assigned when the computed title is truthy. -/
def updateTooltip (item : IMenuItem) (s : ItemState) : ItemState :=
  let title : Option String :=
    if truthyS item.sublabel then item.sublabel
    else if !truthyS item.label && truthyS item.label && item.icon then
      if truthyS item.accelerator then item.accelerator else item.label
    else none
  if truthyS title then { s with title := title } else s

/-- `updateEnabled` (lines 191-198): enabled non-separator items lose
the `disabled` class and get `tabIndex = 0`; everything else (disabled
items, and separators of either enabledness) gains the `disabled` class
and has its tab index left untouched. -/
def updateEnabled (item : IMenuItem) (s : ItemState) : ItemState :=
  if item.enabled && (item.type != some "separator") then
    { s with disabledClass := false, tabIndex := some 0 }
  else
    { s with disabledClass := true }

/-- `updateChecked` (lines 200-210): checked items get the `checked`
class, role `menuitemcheckbox` and `aria-checked="true"`; unchecked
items get role `menuitem` and `aria-checked="false"`. -/
def updateChecked (item : IMenuItem) (s : ItemState) : ItemState :=
  if item.checked then
    { s with checkedClass := true, role := "menuitemcheckbox", ariaChecked := some "true" }
  else
    { s with checkedClass := false, role := "menuitem", ariaChecked := some "false" }

set_option linter.unusedVariables false in
/-- `onClick` (lines 119-130): stops propagation; when the config has a
`click` handler, invokes it with `this.item`, `this.currentWindow` and
the (never assigned) field `this.event`; when the item is a checkbox,
flips `checked` and refreshes the checked visual state.  Returns the
updated instance, the propagation-stopped flag and the recorded
handler invocations. -/
def onClick (m : MenuItemModel) (ev : Nat) : MenuItemModel × Bool × List ClickCall :=
  let calls : List ClickCall :=
    match m.item.click with
    | some h =>
      [{ handler := h, itemArg := m.item, windowArg := m.currentWindow,
         eventArg := m.storedEvent }]
    | none => []
  let m1 :=
    if m.item.type = some "checkbox" then
      let item1 := { m.item with checked := !m.item.checked }
      { m with item := item1, state := updateChecked item1 m.state }
    else m
  (m1, true, calls)

/-- The `MOUSE_DOWN` listener registered in `render` (lines 75-79): only
when the item is enabled, the button is the primary one and the
container is set does it add the `active` class. -/
def mouseDownListener (item : IMenuItem) (button : Nat) (s : ItemState) : ItemState :=
  if item.enabled && (button == 0) && s.hasContainer then
    { s with activeClass := true }
  else s

/-- `applyStyle` (lines 225-237): a no-op until a style is stored; the
selection colors are used only when the item is focused (and present),
otherwise the base colors; the resolved foreground is written to the
check indicator's background and the row's text color, the resolved
background to the row's background; an absent resolved color clears the
inline style (`null` assignment). -/
def applyStyle (menuStyle : Option IMenuStyle) (s : ItemState) : ItemState :=
  match menuStyle with
  | none => s
  | some st =>
    let isSelected := s.hasContainer && s.focusedClass
    let fgColor :=
      if isSelected && st.selectionForegroundColor.isSome then st.selectionForegroundColor
      else st.foregroundColor
    let bgColor :=
      if isSelected && st.selectionBackgroundColor.isSome then st.selectionBackgroundColor
      else st.backgroundColor
    { s with
        checkBackgroundColor := fgColor
        itemColor := fgColor
        itemBackgroundColor := bgColor }

/-- `style` (lines 239-242): stores the style object and immediately
re-applies it; returns the stored style and the restyled state. -/
def style (newStyle : IMenuStyle) (s : ItemState) : Option IMenuStyle × ItemState :=
  (some newStyle, applyStyle (some newStyle) s)

/-- Modelled from the spec: the `Disposable` base class
(`../common/lifecycle`, not in the sources) — "a list of release
callbacks … release all, in reverse registration order, exactly once".
`toRelease` are the registered, not yet released cleanup tokens;
`releasedLog` records every release performed. -/
structure Disposable where
  toRelease : List Nat := []
  releasedLog : List Nat := []
  deriving Repr, DecidableEq

/-- Modelled from the spec: `super.dispose()` of the base class releases
all registered cleanups in reverse registration order and empties the
registration list, so a second call releases nothing. -/
def lifecycleDispose (d : Disposable) : Disposable :=
  { toRelease := [], releasedLog := d.releasedLog ++ d.toRelease.reverse }

/-- The state `MenuItem.dispose` acts on: the `itemElement` reference,
the set of mounted DOM nodes (`removeNode` deletes from it), and the
base-class disposables. -/
structure DisposeView where
  itemElement : Option Nat := none
  domNodes : List Nat := []
  base : Disposable := {}
  deriving Repr, DecidableEq

/-- `dispose` (lines 212-219): when `itemElement` is set, removes the
node from the DOM and clears the reference; then calls the base-class
`dispose`. -/
def dispose (v : DisposeView) : DisposeView :=
  let v1 :=
    match v.itemElement with
    | some n =>
      { v with domNodes := v.domNodes.filter (fun m => !(m == n)), itemElement := none }
    | none => v
  { v1 with base := lifecycleDispose v1.base }

/-- A sample disposal state: mounted node `5` present in the document
next to node `8`, with two registered listener disposables. -/
def sampleView : DisposeView :=
  { itemElement := some 5, domNodes := [5, 8], base := { toRelease := [1, 2] } }

example : mnemonicExec "&File".data = some 'F' := by decide
example : mnemonicExec "New &&Window".data = some 'W' := by decide
example : mnemonicExec "Plain".data = none := by decide
example : cleanMnemonic "&File" = "File" := by decide
example : trimList " a ".data = "a".data := by decide
example : String.mk "File".data = "File" := rfl
example :
    injectMnemonicTag (escapeList "&File".data) =
      "<u aria-hidden=\"true\">F</u>ile".data := by decide
example : jsGlobalEscape "&File".data = "%26File".data := by decide
example : jsGlobalEscape "a b".data = "a%20b".data := by decide

/-- Falsiness of an absent optional string. -/
theorem truthyS_none : truthyS none = false := rfl

/-- C10: whenever the computed title is not truthy (no truthy sublabel;
the fallback guard is self-contradictory, hence never taken),
`updateTooltip` leaves the state — in particular the title attribute —
unchanged, so a previously set tooltip persists even after the sublabel
is removed from the config. -/
theorem C10_tooltip_frame (item : IMenuItem) (s : ItemState)
    (h : truthyS item.sublabel = false) :
    updateTooltip item s = s := by
  cases hl : truthyS item.label <;>
    simp [updateTooltip, h, hl, truthyS_none]

/-- C10 witness: an item whose sublabel was removed keeps the tooltip
set by an earlier call. -/
theorem C10_witness :
    updateTooltip { label := some "File", icon := true }
        { title := some "old sublabel" } =
      { title := some "old sublabel" } :=
  C10_tooltip_frame { label := some "File", icon := true }
    { title := some "old sublabel" } (by decide)

/-- C2: the claimed icon fallback never fires.  With no sublabel, no
label, an icon and accelerator `Ctrl+X` — an input where the claim
requires the tooltip to become the accelerator text — `updateTooltip`
leaves the title attribute unset, because the source guard
`!this.item.label && this.item.label && this.item.icon` is
contradictory (the spec flags this as a likely logic bug). -/
theorem C2_tooltip_fallback_dead :
    (updateTooltip { icon := true, accelerator := some "Ctrl+X" } {}).title = none ∧
    truthyS (some "Ctrl+X") = true := by decide

/-- C3: `onClick` stops propagation and invokes the handler with the
item and the owning window, but the third argument is the private field
`event`, which is never assigned — for a freshly constructed item
receiving native event `7`, the handler observes `none`, not the
originating event `some 7`. -/
theorem C3_onClick_event_arg :
    (onClick (mkMenuItem { click := some 1 } {} 5) 7).2.1 = true ∧
    (onClick (mkMenuItem { click := some 1 } {} 5) 7).2.2 =
      [{ handler := 1, itemArg := { click := some 1 }, windowArg := 5,
         eventArg := none }] ∧
    (none : Option Nat) ≠ some 7 := by decide

/-- C6: `updateEnabled` never assigns a tab index to separators (they
stay unfocusable); enabled non-separator items get tab index `0` and
lose the `disabled` class; disabled items gain the `disabled` class
with their tab index left untouched, so a freshly rendered disabled
item (tab index unset) stays unreachable by tab. -/
theorem C6_updateEnabled_spec (item : IMenuItem) (s : ItemState) :
    (item.type = some "separator" →
      (updateEnabled item s).tabIndex = s.tabIndex ∧
      (updateEnabled item s).disabledClass = true) ∧
    (item.enabled = true → item.type ≠ some "separator" →
      (updateEnabled item s).tabIndex = some 0 ∧
      (updateEnabled item s).disabledClass = false) ∧
    (item.enabled = false →
      (updateEnabled item s).tabIndex = s.tabIndex ∧
      (updateEnabled item s).disabledClass = true) := by
  refine ⟨fun h => ?_, fun he ht => ?_, fun he => ?_⟩
  · simp [updateEnabled, h]
  · simp [updateEnabled, he, bne_iff_ne, ht]
  · simp [updateEnabled, he]

/-- C6 witness: an enabled separator, an enabled `File` item and a
disabled `File` item, all from the fresh render state. -/
theorem C6_witness :
    ((updateEnabled { type := some "separator", enabled := true } {}).tabIndex = none ∧
     (updateEnabled { type := some "separator", enabled := true } {}).disabledClass = true) ∧
    ((updateEnabled { label := some "File", enabled := true } {}).tabIndex = some 0 ∧
     (updateEnabled { label := some "File", enabled := true } {}).disabledClass = false) ∧
    ((updateEnabled { label := some "File" } {}).tabIndex = none ∧
     (updateEnabled { label := some "File" } {}).disabledClass = true) := by
  refine ⟨?_, ?_, ?_⟩
  · exact (C6_updateEnabled_spec { type := some "separator", enabled := true } {}).1 rfl
  · exact (C6_updateEnabled_spec { label := some "File", enabled := true } {}).2.1 rfl (by decide)
  · exact (C6_updateEnabled_spec { label := some "File" } {}).2.2 rfl

/-- C4: a single `onClick` on a checkbox-type item flips `checked`
exactly once, and the refreshed ARIA state matches the new value:
role `menuitemcheckbox` with `aria-checked="true"` (and the `checked`
class) when the flip lands on checked, role `menuitem` with
`aria-checked="false"` when it lands on unchecked. -/
theorem C4_checkbox_click (m : MenuItemModel) (ev : Nat)
    (h : m.item.type = some "checkbox") :
    ((onClick m ev).1.item.checked = !m.item.checked) ∧
    (m.item.checked = false →
      (onClick m ev).1.state.role = "menuitemcheckbox" ∧
      (onClick m ev).1.state.ariaChecked = some "true" ∧
      (onClick m ev).1.state.checkedClass = true) ∧
    (m.item.checked = true →
      (onClick m ev).1.state.role = "menuitem" ∧
      (onClick m ev).1.state.ariaChecked = some "false" ∧
      (onClick m ev).1.state.checkedClass = false) := by
  refine ⟨?_, fun hc => ?_, fun hc => ?_⟩ <;>
    simp [onClick, updateChecked, h, *]

/-- C4 witness: clicking a freshly constructed unchecked checkbox makes
it checked with checkbox ARIA, clicking once more reverts it. -/
theorem C4_witness :
    ((onClick (mkMenuItem { type := some "checkbox" } {} 0) 3).1.item.checked = true) ∧
    ((onClick (mkMenuItem { type := some "checkbox" } {} 0) 3).1.state.role =
      "menuitemcheckbox") ∧
    ((onClick (mkMenuItem { type := some "checkbox" } {} 0) 3).1.state.ariaChecked =
      some "true") ∧
    ((onClick (mkMenuItem { type := some "checkbox", checked := true } {} 0) 3).1.state.role =
      "menuitem") := by
  have h1 := C4_checkbox_click (mkMenuItem { type := some "checkbox" } {} 0) 3 rfl
  have h2 := C4_checkbox_click (mkMenuItem { type := some "checkbox", checked := true } {} 0) 3 rfl
  exact ⟨h1.1.trans (by decide), (h1.2.1 rfl).1, (h1.2.1 rfl).2.1, (h2.2.2 rfl).1⟩

/-- C9: `onClick` contains no enabled check — on a disabled item with a
click handler it still records exactly the handler invocation (and a
disabled checkbox still flips), while the disabled guard sits in the
render-time mouse-down listener, which leaves the state unchanged for a
disabled item whatever the button. -/
theorem C9_onClick_no_enabled_guard (m : MenuItemModel) (ev : Nat) (hid : Nat)
    (hd : m.item.enabled = false) (hc : m.item.click = some hid) :
    ((onClick m ev).2.2 =
      [{ handler := hid, itemArg := m.item, windowArg := m.currentWindow,
         eventArg := m.storedEvent }]) ∧
    (m.item.type = some "checkbox" → (onClick m ev).1.item.checked = !m.item.checked) ∧
    (∀ (b : Nat) (s : ItemState), mouseDownListener m.item b s = s) := by
  refine ⟨?_, fun ht => ?_, fun b s => ?_⟩
  · simp [onClick, hc]
  · simp [onClick, ht]
  · simp [mouseDownListener, hd]

/-- C9 witness: a disabled checkbox with handler 4: direct `onClick`
still invokes the handler and flips the checkbox, while the mouse-down
listener does nothing. -/
theorem C9_witness :
    ((onClick (mkMenuItem { type := some "checkbox", click := some 4 } {} 9) 1).2.2 =
      [{ handler := 4, itemArg := { type := some "checkbox", click := some 4 },
         windowArg := 9, eventArg := none }]) ∧
    ((onClick (mkMenuItem { type := some "checkbox", click := some 4 } {} 9) 1).1.item.checked =
      true) ∧
    (mouseDownListener { type := some "checkbox", click := some 4 } 0 {} = {}) := by
  have h := C9_onClick_no_enabled_guard
    (mkMenuItem { type := some "checkbox", click := some 4 } {} 9) 1 4 rfl rfl
  exact ⟨h.1.trans (by decide), (h.2.1 rfl).trans (by decide), h.2.2 0 {}⟩

/-- C7: `dispose` removes the mounted DOM node when one is present and
clears the `itemElement` reference, then releases every base-class
registration (in reverse registration order); a second call is a no-op
on the resulting state, so `dispose` is idempotent. -/
theorem C7_dispose_spec (v : DisposeView) :
    ((dispose v).itemElement = none) ∧
    (∀ n, v.itemElement = some n → ¬ n ∈ (dispose v).domNodes) ∧
    ((dispose v).base.toRelease = [] ∧
     (dispose v).base.releasedLog = v.base.releasedLog ++ v.base.toRelease.reverse) ∧
    (dispose (dispose v) = dispose v) := by
  obtain ⟨e, d, b⟩ := v
  cases e <;>
    simp [dispose, lifecycleDispose, List.mem_filter]

/-- C7 witness: a mounted item whose node 5 is in the document with two
registered listeners: disposal removes the node, clears the reference,
releases both registrations, and disposing again changes nothing. -/
theorem C7_witness :
    ((dispose sampleView).itemElement = none) ∧
    (¬ 5 ∈ (dispose sampleView).domNodes) ∧
    ((dispose sampleView).base.releasedLog = [2, 1]) ∧
    (dispose (dispose sampleView) = dispose sampleView) := by
  have h := C7_dispose_spec sampleView
  exact ⟨h.1, h.2.1 5 rfl, h.2.2.1.2.trans (by decide), h.2.2.2⟩

/-- C8: `style` stores the style and applies it: if the item is
selected (container set and `focused` class) a present selection color
wins, otherwise the base color is used; the resolved foreground is
written to the check indicator background and the row text color, the
resolved background to the row background; and an absent resolved color
clears the inline styles (assigning `null`), whatever stale value the
state held. -/
theorem C8_applyStyle_spec (st : IMenuStyle) (s : ItemState) :
    ((s.hasContainer && s.focusedClass) = true →
      st.selectionForegroundColor.isSome = true →
      ((style st s).2.checkBackgroundColor = st.selectionForegroundColor ∧
       (style st s).2.itemColor = st.selectionForegroundColor)) ∧
    ((s.hasContainer && s.focusedClass) = true →
      st.selectionBackgroundColor.isSome = true →
      (style st s).2.itemBackgroundColor = st.selectionBackgroundColor) ∧
    ((s.hasContainer && s.focusedClass) = false ∨ st.selectionForegroundColor = none →
      ((style st s).2.checkBackgroundColor = st.foregroundColor ∧
       (style st s).2.itemColor = st.foregroundColor)) ∧
    ((s.hasContainer && s.focusedClass) = false ∨ st.selectionBackgroundColor = none →
      (style st s).2.itemBackgroundColor = st.backgroundColor) ∧
    (st.foregroundColor = none → st.selectionForegroundColor = none →
      ((style st s).2.checkBackgroundColor = none ∧ (style st s).2.itemColor = none)) ∧
    (st.backgroundColor = none → st.selectionBackgroundColor = none →
      (style st s).2.itemBackgroundColor = none) := by
  refine ⟨fun h1 h2 => ?_, fun h1 h2 => ?_, fun h1 => ?_, fun h1 => ?_,
    fun h1 h2 => ?_, fun h1 h2 => ?_⟩
  · simp [style, applyStyle, h1, h2]
  · simp [style, applyStyle, h1, h2]
  · rcases h1 with h1 | h1 <;> simp [style, applyStyle, h1]
  · rcases h1 with h1 | h1 <;> simp [style, applyStyle, h1]
  · simp [style, applyStyle, h1, h2]
  · simp [style, applyStyle, h1, h2]

/-- C8 witness: a focused item takes the selection foreground over the
base one; an unfocused item takes the base foreground; and an empty
style clears a stale inline color. -/
theorem C8_witness :
    ((style { foregroundColor := some "#000", selectionForegroundColor := some "#fff" }
        { focusedClass := true }).2.itemColor = some "#fff") ∧
    ((style { foregroundColor := some "#000", selectionForegroundColor := some "#fff" }
        {}).2.itemColor = some "#000") ∧
    ((style {} { itemColor := some "#stale" }).2.itemColor = none) := by
  have h1 := (C8_applyStyle_spec
    { foregroundColor := some "#000", selectionForegroundColor := some "#fff" }
    { focusedClass := true }).1 (by decide) (by decide)
  have h2 := (C8_applyStyle_spec
    { foregroundColor := some "#000", selectionForegroundColor := some "#fff" }
    {}).2.2.1 (Or.inl (by decide))
  have h3 := (C8_applyStyle_spec {} { itemColor := some "#stale" }).2.2.2.2.1 rfl rfl
  exact ⟨h1.2, h2.2, h3.2⟩

/-- C5: constructor-time mnemonic derivation: with mnemonics enabled
and a truthy label, the mnemonic is the uppercased capture of the first
marker match; with no marker match, no (or empty) label, or mnemonics
disabled, the mnemonic stays unset — and in every case construction
yields an instance carrying the config (graceful degradation: the
embedding is total). -/
theorem C5_constructor_mnemonic (item : IMenuItem) (options : IMenuOptions) (w : Nat) :
    (∀ lbl c, item.label = some lbl → lbl ≠ "" → options.enableMnemonics = true →
      mnemonicExec lbl.data = some c →
      (mkMenuItem item options w).mnemonic = some (String.mk [c.toUpper])) ∧
    (∀ lbl, item.label = some lbl → mnemonicExec lbl.data = none →
      (mkMenuItem item options w).mnemonic = none) ∧
    (item.label = none → (mkMenuItem item options w).mnemonic = none) ∧
    (options.enableMnemonics = false → (mkMenuItem item options w).mnemonic = none) ∧
    (mkMenuItem item options w).item = item := by
  refine ⟨fun lbl c hl hne he hm => ?_, fun lbl hl hm => ?_, fun hl => ?_,
    fun he => ?_, rfl⟩
  · simp [mkMenuItem, constructorMnemonic, truthyS, hl, hne, he, hm,
      String.isEmpty_iff]
  · simp [mkMenuItem, constructorMnemonic, hl, hm]
  · simp [mkMenuItem, constructorMnemonic, truthyS_none, hl]
  · simp [mkMenuItem, constructorMnemonic, he]

/-- C5 witness: `&File` with mnemonics enabled yields mnemonic `F`;
a marker-free label, a missing label, and disabled mnemonics yield
none; construction succeeds in each case. -/
theorem C5_witness :
    ((mkMenuItem { label := some "&File" } { enableMnemonics := true } 0).mnemonic =
      some "F") ∧
    ((mkMenuItem { label := some "File" } { enableMnemonics := true } 0).mnemonic = none) ∧
    ((mkMenuItem {} { enableMnemonics := true } 0).mnemonic = none) ∧
    ((mkMenuItem { label := some "&File" } {} 0).mnemonic = none) ∧
    ((mkMenuItem { label := some "&File" } {} 0).item = { label := some "&File" }) := by
  have h1 := (C5_constructor_mnemonic { label := some "&File" }
    { enableMnemonics := true } 0).1 "&File" 'F' rfl (by decide) rfl (by decide)
  have h2 := (C5_constructor_mnemonic { label := some "File" }
    { enableMnemonics := true } 0).2.1 "File" rfl (by decide)
  have h3 := (C5_constructor_mnemonic {} { enableMnemonics := true } 0).2.2.1 rfl
  have h4 := (C5_constructor_mnemonic { label := some "&File" } {} 0).2.2.2.1 rfl
  have h5 := (C5_constructor_mnemonic { label := some "&File" } {} 0).2.2.2.2
  exact ⟨h1.trans (by decide), h2, h3, h4, h5⟩

/-- A hex digit emitted by the percent-encoder is never an ampersand. -/
theorem hexDigit_ne_amp (n : Nat) : hexDigit n ≠ '&' := by
  unfold hexDigit
  split <;> decide

/-- No character of a `%uXXXX` escape sequence is an ampersand. -/
theorem mem_pctU_ne_amp (n : Nat) (x : Char) (hx : x ∈ pctU n) : x ≠ '&' := by
  simp only [pctU, List.mem_cons, List.not_mem_nil, or_false] at hx
  rcases hx with rfl | rfl | rfl | rfl | rfl | rfl
  · decide
  · decide
  all_goals exact hexDigit_ne_amp _

/-- No character emitted by the JS global `escape` for a single input
character is an ampersand: `&` itself is not in the safe set, and the
other branches emit only `%`, `u` and hex digits. -/
theorem mem_jsEscapeChar_ne_amp (c x : Char) (hx : x ∈ jsEscapeChar c) : x ≠ '&' := by
  unfold jsEscapeChar at hx
  split at hx
  · next hsafe =>
    simp only [List.mem_singleton] at hx
    subst hx
    intro h
    rw [h] at hsafe
    exact absurd hsafe (by decide)
  · split at hx
    · simp only [List.mem_cons, List.not_mem_nil, or_false] at hx
      rcases hx with rfl | rfl | rfl
      · decide
      · exact hexDigit_ne_amp _
      · exact hexDigit_ne_amp _
    · split at hx
      · exact mem_pctU_ne_amp _ x hx
      · rcases List.mem_append.mp hx with h1 | h1
        · exact mem_pctU_ne_amp _ x h1
        · exact mem_pctU_ne_amp _ x h1

/-- Percent-encoded text contains no ampersand at all. -/
theorem amp_not_mem_jsGlobalEscape (s : List Char) : ¬ '&' ∈ jsGlobalEscape s := by
  intro hmem
  rw [jsGlobalEscape] at hmem
  rcases List.mem_flatMap.mp hmem with ⟨c, _, hc⟩
  exact mem_jsEscapeChar_ne_amp c '&' hc rfl

/-- On ampersand-free text the escaped-mnemonic replacement finds no
`&amp;` and is the identity. -/
theorem injectMnemonicTag_of_no_amp (s : List Char) (h : ¬ '&' ∈ s) :
    injectMnemonicTag s = s := by
  induction s with
  | nil => rfl
  | cons x rest ih =>
    have hx : (x == '&') = false := by
      rcases h1 : x == '&' with _ | _
      · rfl
      · exact absurd (by rw [eq_of_beq h1]; exact List.mem_cons_self '&' rest) h
    have hrest : ¬ '&' ∈ rest := fun hc => h (List.mem_cons_of_mem _ hc)
    have hd : dropAmpEntity (x :: rest) = none := by
      rcases rest with _ | ⟨b, _ | ⟨c2, _ | ⟨d, _ | ⟨e, r⟩⟩⟩⟩ <;>
        simp [dropAmpEntity, hx]
    simp only [injectMnemonicTag, hd]
    rw [ih hrest]

/-- The underline-injection step of `updateLabel` never fires on the
output of the JS global `escape`, whatever the label. -/
theorem injectMnemonicTag_jsGlobalEscape (s : List Char) :
    injectMnemonicTag (jsGlobalEscape s) = jsGlobalEscape s :=
  injectMnemonicTag_of_no_amp _ (amp_not_mem_jsGlobalEscape s)

/-- C1: code bug — `part_000` never imports the repo's HTML `escape`
helper, so line 164 calls the JS global percent-encoder.  For the spec
scenario, label `&File` with mnemonics enabled, `updateLabel` sets the
accessible label and `aria-keyshortcuts` as claimed, but the label
markup becomes `%26File`: the `&amp;`-matching replacement finds
nothing in percent-encoded text, so no underline tag is injected and
no HTML-entity escaping happens — where the claim (and the spec's `&File`
scenario) requires the HTML-escape with the single underline tag,
`<u aria-hidden="true">F</u>ile`. -/
theorem C1_escape_code_bug :
    ((updateLabel { label := some "&File" } true {}).ariaLabel = some "File") ∧
    ((updateLabel { label := some "&File" } true {}).ariaKeyshortcuts = some "f") ∧
    ((updateLabel { label := some "&File" } true {}).labelHTML = some "%26File") ∧
    (String.mk (trimList (injectMnemonicTag (escapeList "&File".data))) =
      "<u aria-hidden=\"true\">F</u>ile") ∧
    ("%26File" ≠ "<u aria-hidden=\"true\">F</u>ile") := by
  decide

end MenuItemSpec
